import Mathlib

/-!
Verification development for `pyymw16/ne2001_wrapper.py`, a thin unit- and
coordinate-conversion layer around the compiled NE2001 routines
`dmdsm.dmdsm` and `density.density_2001`.

The Python module is shallowly embedded: numpy scalars become real numbers
(float32 rounding is abstracted to exact reals), numpy arrays become lists of
reals living on an explicit heap (an array object is an address into the
heap), and the two compiled Fortran collaborators are abstract structures
constrained only by their f2py signatures (in/out buffers are written in
place, shapes preserved). Exceptions are modelled with `Except`; the process
state visible to the wrapper is the current working directory plus the array
heap.
-/

namespace NE2001

/-- Physical units attached by astropy at the wrapper boundary:
`u.kpc`, `u.s`, `u.pc / u.cm**3` and `1 / u.cm**3`; `dimensionless` stands
for `u.dimensionless_unscaled`, the only unit astropy will compare against a
plain float. -/
inductive PhysUnit where
  | kpc
  | second
  | pcPerCm3
  | perCm3
  | dimensionless

/-- A value carrying an astropy unit (`value * u.something`). -/
structure Quantity where
  value : Real
  unit : PhysUnit

/-- The Python exceptions the embedded fragment can raise: `TypeError` from
`float()` applied to an array of size other than one, `NameError` from an
unbound global, `ValueError` from the f2py layer rejecting a wrongly shaped
buffer (and standing for any generic failure raised inside a wrapped
operation), and astropy `UnitConversionError` from comparing a unit-carrying
quantity with a plain float. -/
inductive PyErr where
  | typeError
  | nameError
  | valueError
  | unitConversionError

/-- Process state visible to the module: the current working directory and
the numpy arrays on the heap. An array object is an address, i.e. an index
into `arrays`; allocation appends, so fresh addresses are at the end. -/
structure PyState where
  cwd : String
  arrays : List (List Real)

/-- Read the contents of the array at address `a`. -/
def readArr (s : PyState) (a : Nat) : List Real := s.arrays.getD a []

/-- Allocate a fresh array object holding `v`; returns the new state and the
fresh address. -/
def allocArr (s : PyState) (v : List Real) : PyState × Nat :=
  ({ s with arrays := s.arrays ++ [v] }, s.arrays.length)

/-- Overwrite in place the contents of the array at address `a`. -/
def writeArr (s : PyState) (a : Nat) (v : List Real) : PyState :=
  { s with arrays := s.arrays.set a v }

/-- An argument as handed to the wrapper from Python: either a plain scalar
number or a reference to an array object on the heap. -/
inductive PyVal where
  | scalar (x : Real)
  | arrayRef (a : Nat)

/-- The element list that `np.array(arg, dtype=float32)` copies: a scalar
becomes a rank-0 (single-element) array, an array argument contributes its
current heap contents. `np.array` copies by default, so the result is always
a fresh object; float32 rounding is abstracted to exact reals. -/
def pyContents (s : PyState) : PyVal → List Real
  | PyVal.scalar x => [x]
  | PyVal.arrayRef a => readArr s a

/-- `np.zeros_like(xs)`: a zero-filled array of the same shape. -/
def zeros_like (xs : List Real) : List Real := xs.map (fun _ => (0 : Real))

/-- `np.deg2rad(d) = d * pi / 180`. -/
noncomputable def deg2rad (d : Real) : Real := d * (Real.pi / 180)

/-- Python `float()` applied to a numpy array: succeeds exactly on arrays of
size one (rank-0 or single-element), raises `TypeError` otherwise. -/
def pyFloat : List Real → Option Real
  | [x] => some x
  | _ => none

/-- `np.linspace(start, stop, num)`: `num` evenly spaced samples from `start`
to `stop` inclusive. -/
noncomputable def linspace (start stop : Real) (num : Nat) : List Real :=
  (List.range num).map (fun i : Nat => start + (stop - start) * (i : Real) / ((num : Real) - 1))

/-- `DATA_PATH = os.path.dirname(os.path.abspath(__file__))`: the absolute
path of the package install directory, fixed at import time. Its exact text
is irrelevant to the module; it is modelled as an abstract constant string. -/
def DATA_PATH : String := "/site-packages/pyymw16"

/-- The decorator `run_from_pkgdir`: record `cwdpath = os.getcwd()`, do
`os.chdir(DATA_PATH)`, run the wrapped operation, then `os.chdir(cwdpath)`
and return its result. There is no `try/finally`: if the wrapped operation
raises, the restoring `os.chdir(cwdpath)` is skipped and the exception
propagates with whatever working directory the operation left behind. -/
def run_from_pkgdir {α : Type} (f : PyState → PyState × Except PyErr α)
    (s : PyState) : PyState × Except PyErr α :=
  let cwdpath := s.cwd
  let s1 : PyState := { s with cwd := DATA_PATH }
  match f s1 with
  | (s2, Except.ok r) => ({ s2 with cwd := cwdpath }, Except.ok r)
  | (s2, Except.error e) => (s2, Except.error e)

/-- The five scalar results of `dmdsm.dmdsm` together with the final contents
of its two in/out rank-0 buffers (`dmpsr` and `dist`), which the Fortran
routine overwrites in place. -/
structure DmdsmOut where
  limit : String
  sm : Real
  smtau : Real
  smtheta : Real
  smiso : Real
  dmOut : List Real
  distOut : List Real

/-- Abstract model of the Fortran core behind the f2py object
`limit,sm,smtau,smtheta,smiso = dmdsm.dmdsm(l, b, ndir, dmpsr, dist)`.
It is a black box except for its calling convention: the in/out buffers are
written in place, so their shapes are preserved. Shape admission is not the
core's business - the f2py marshalling layer in front of it ([f2py_dmdsm])
only ever hands it size-one buffers. -/
structure Dmdsm where
  run : Real → Real → Int → List Real → List Real → DmdsmOut
  dm_len : ∀ l b n dm dist, (run l b n dm dist).dmOut.length = dm.length
  dist_len : ∀ l b n dm dist, (run l b n dm dist).distOut.length = dist.length

/-- The f2py marshalling layer of the call `dmdsm.dmdsm(l, b, ndir, dmpsr,
dist)`: the in-source docstring declares `dmpsr` and `dist` as in/out rank-0
arrays, so numpy admits only size-one buffers for them and rejects anything
larger with `ValueError` (too many axes) at the call itself, before the
Fortran core runs. -/
def f2py_dmdsm (O : Dmdsm) (l b : Real) (ndir : Int) (dm dist : List Real) :
    Except PyErr DmdsmOut :=
  if dm.length = 1 ∧ dist.length = 1 then Except.ok (O.run l b ndir dm dist)
  else Except.error PyErr.valueError

/-- `dm_to_dist(l, b, dm)` decorated with `@run_from_pkgdir`:
`dm = np.array(dm, dtype=float32)`, `dist = np.zeros_like(dm)`,
`l_rad = np.deg2rad(l)`, `b_rad = np.deg2rad(b)`, `ndir = 1`,
`limit,sm,smtau,smtheta,smiso = dmdsm.dmdsm(l_rad, b_rad, ndir, dm, dist)`,
`return float(dist) * u.kpc, smtau * u.s`. -/
noncomputable def dm_to_dist (O : Dmdsm) (l b : Real) (dmArg : PyVal) :
    PyState → PyState × Except PyErr (Quantity × Quantity) :=
  run_from_pkgdir (fun s =>
    let dmList := pyContents s dmArg
    let t1 := allocArr s dmList
    let distList := zeros_like dmList
    let t2 := allocArr t1.1 distList
    let l_rad := deg2rad l
    let b_rad := deg2rad b
    let ndir : Int := 1
    match f2py_dmdsm O l_rad b_rad ndir dmList distList with
    | Except.error e => (t2.1, Except.error e)
    | Except.ok o =>
      let s3 := writeArr (writeArr t2.1 t1.2 o.dmOut) t2.2 o.distOut
      match pyFloat (readArr s3 t2.2) with
      | some d => (s3, Except.ok (⟨d, PhysUnit.kpc⟩, ⟨o.smtau, PhysUnit.second⟩))
      | none => (s3, Except.error PyErr.typeError))

/-- `dist_to_dm(l, b, dist)` decorated with `@run_from_pkgdir`:
`dist = np.array(dist, dtype=float32)`, `dm = np.zeros_like(dist)`,
`l_rad = np.deg2rad(l)`, `b_rad = np.deg2rad(b)`, `ndir = -1`,
`limit,sm,smtau,smtheta,smiso = dmdsm.dmdsm(l_rad, b_rad, ndir, dm, dist)`,
`return float(dm) * u.pc / u.cm**3, smtau * u.s`. -/
noncomputable def dist_to_dm (O : Dmdsm) (l b : Real) (distArg : PyVal) :
    PyState → PyState × Except PyErr (Quantity × Quantity) :=
  run_from_pkgdir (fun s =>
    let distList := pyContents s distArg
    let t1 := allocArr s distList
    let dmList := zeros_like distList
    let t2 := allocArr t1.1 dmList
    let l_rad := deg2rad l
    let b_rad := deg2rad b
    let ndir : Int := -1
    match f2py_dmdsm O l_rad b_rad ndir dmList distList with
    | Except.error e => (t2.1, Except.error e)
    | Except.ok o =>
      let s3 := writeArr (writeArr t2.1 t2.2 o.dmOut) t1.2 o.distOut
      match pyFloat (readArr s3 t2.2) with
      | some d => (s3, Except.ok (⟨d, PhysUnit.pcPerCm3⟩, ⟨o.smtau, PhysUnit.second⟩))
      | none => (s3, Except.error PyErr.typeError))

/-- Abstract model of the compiled f2py routine `density.density_2001(x,y,z)`:
seven density components, seven weighting fractions, nine integer flags. -/
structure Density2001 where
  ne1 : Real → Real → Real → Real
  ne2 : Real → Real → Real → Real
  nea : Real → Real → Real → Real
  negc : Real → Real → Real → Real
  nelism : Real → Real → Real → Real
  necn : Real → Real → Real → Real
  nevn : Real → Real → Real → Real
  f1 : Real → Real → Real → Real
  f2 : Real → Real → Real → Real
  fa : Real → Real → Real → Real
  fgc : Real → Real → Real → Real
  flism : Real → Real → Real → Real
  fcn : Real → Real → Real → Real
  fvn : Real → Real → Real → Real
  whicharm : Real → Real → Real → Int
  wlism : Real → Real → Real → Int
  wldr : Real → Real → Real → Int
  wlhb : Real → Real → Real → Int
  wlsb : Real → Real → Real → Int
  wloopi : Real → Real → Real → Int
  hitclump : Real → Real → Real → Int
  hitvoid : Real → Real → Real → Int
  wvoid : Real → Real → Real → Int

/-- The 23-tuple returned by `density.density_2001(x, y, z)`, in its f2py
order, as the sequence that slicing sees (integer flags cast to real; they
sit from index 14 on and are never consumed by the wrapper). -/
noncomputable def density_2001_out (D : Density2001) (x y z : Real) : List Real :=
  [D.ne1 x y z, D.ne2 x y z, D.nea x y z, D.negc x y z, D.nelism x y z,
   D.necn x y z, D.nevn x y z, D.f1 x y z, D.f2 x y z, D.fa x y z,
   D.fgc x y z, D.flism x y z, D.fcn x y z, D.fvn x y z,
   (D.whicharm x y z : Real), (D.wlism x y z : Real), (D.wldr x y z : Real),
   (D.wlhb x y z : Real), (D.wlsb x y z : Real), (D.wloopi x y z : Real),
   (D.hitclump x y z : Real), (D.hitvoid x y z : Real), (D.wvoid x y z : Real)]

/-- `calculate_electron_density_xyz(x, y, z)` decorated with
`@run_from_pkgdir`: `ne_out = density.density_2001(x, y, z)` and
`return np.sum(ne_out[:7]) / u.cm**3`. -/
noncomputable def calculate_electron_density_xyz (D : Density2001) (x y z : Real) :
    PyState → PyState × Except PyErr Quantity :=
  run_from_pkgdir (fun s =>
    (s, Except.ok ⟨((density_2001_out D x y z).take 7).sum, PhysUnit.perCm3⟩))

/-- Every name bound at module level in `ne2001_wrapper.py`: the imports
(`np`, `os`, `wraps`, `u`, `dmdsm`, `density`), the constant `DATA_PATH`,
and the five functions the module defines. -/
def moduleGlobals : List String :=
  ["np", "os", "wraps", "u", "dmdsm", "density", "DATA_PATH",
   "run_from_pkgdir", "dm_to_dist", "dist_to_dm",
   "calculate_electron_density_xyz", "test_dm", "test_density"]

/-- One iteration of the inner loop of `test_density`:
`ne_arr[ii, jj] = density_xyz(xx, yy, zz)`. Python resolves the bare name
`density_xyz` first in the local scope of `test_density` (whose locals are
`plt`, `Nx`, `Ny`, `ne_arr`, `xvals`, `yvals`, `zz`, `ii`, `xx`, `jj`, `yy`),
then in the module globals, then in the builtins; the builtins bind no such
name, so an unbound module global raises `NameError`. Were the name bound in
the module, it could only denote the density sampler this module defines,
`calculate_electron_density_xyz`. -/
noncomputable def test_density_cell (D : Density2001) (x y z : Real) (s : PyState) :
    PyState × Except PyErr Real :=
  if "density_xyz" ∈ moduleGlobals then
    match calculate_electron_density_xyz D x y z s with
    | (s1, Except.ok q) => (s1, Except.ok q.value)
    | (s1, Except.error e) => (s1, Except.error e)
  else
    (s, Except.error PyErr.nameError)

/-- The inner loop of `test_density` over `yvals` at a fixed `xx`, collecting
one row of `ne_arr`; a raising cell aborts the loop and propagates. -/
noncomputable def gridRow (D : Density2001) (x : Real) (ys : List Real) (z : Real)
    (s : PyState) : PyState × Except PyErr (List Real) :=
  match ys with
  | [] => (s, Except.ok [])
  | y :: rest =>
    match test_density_cell D x y z s with
    | (s1, Except.ok v) =>
      match gridRow D x rest z s1 with
      | (s2, Except.ok vs) => (s2, Except.ok (v :: vs))
      | (s2, Except.error e) => (s2, Except.error e)
    | (s1, Except.error e) => (s1, Except.error e)

/-- The outer loop of `test_density` over `xvals`, collecting the rows of
`ne_arr`; a raising row aborts the loop and propagates. -/
noncomputable def gridAll (D : Density2001) (xs ys : List Real) (z : Real)
    (s : PyState) : PyState × Except PyErr (List (List Real)) :=
  match xs with
  | [] => (s, Except.ok [])
  | x :: rest =>
    match gridRow D x ys z s with
    | (s1, Except.ok v) =>
      match gridAll D rest ys z s1 with
      | (s2, Except.ok vs) => (s2, Except.ok (v :: vs))
      | (s2, Except.error e) => (s2, Except.error e)
    | (s1, Except.error e) => (s1, Except.error e)

/-- The grid-filling phase of `test_density`: `Nx, Ny = 1000, 1000`,
`xvals = np.linspace(-30, 30, Nx)`, `yvals = np.linspace(-30, 30, Ny)`,
`zz = 0`, then the double loop filling `ne_arr`. -/
noncomputable def test_density_fill (D : Density2001) (s : PyState) :
    PyState × Except PyErr (List (List Real)) :=
  gridAll D (linspace (-30) 30 1000) (linspace (-30) 30 1000) 0 s

/-- `np.allclose(a, b, atol=2)` on scalars: the numpy closeness test
`|a - b| <= atol + rtol * |b|` with the default `rtol = 1e-5`. -/
def np_allclose (a b atol : Real) : Prop := |a - b| ≤ atol + 1e-5 * |b|

/-- The `l` column of `test_data` in `test_dm`. -/
def test_data_l : List Real := [0, 2, 97.5]

/-- The `b` column of `test_data` in `test_dm`. -/
def test_data_b : List Real := [0, 7.5, 85.2]

/-- The `dm` column of `test_data` in `test_dm`. -/
def test_data_dm : List Real := [10, 20, 11.1]

/-- The `dist` column of `test_data` in `test_dm`. -/
def test_data_dist : List Real := [0.461, 0.781, 0.907]

/-- The value of a successful wrapper call (the first quantity of the returned
pair); a raising call yields no value and is mapped to 0. -/
def okValue : Except PyErr (Quantity × Quantity) → Real
  | Except.ok (q, _) => q.value
  | Except.error _ => 0

/-- `np.allclose(q, b, atol=atol)` where `q` is an astropy quantity and `b`
a plain float: a dimensionless quantity is compared numerically, while a
unit-carrying quantity requires converting the plain comparand (and the
plain `atol`) to its unit, which astropy refuses for the plain non-zero
reference values `test_dm` uses - on older numpy the subtraction
`q - b` inside `isclose` raises, on newer numpy the `_to_own_unit`
conversion in the astropy `allclose` override raises - so the comparison
raises `UnitConversionError` before any tolerance check is evaluated. -/
def np_allclose_q (q : Quantity) (b atol : Real) : Except PyErr Prop :=
  match q.unit with
  | PhysUnit.dimensionless => Except.ok (np_allclose q.value b atol)
  | _ => Except.error PyErr.unitConversionError

/-- Iteration `ii` of `test_dm`, first assert statement:
`dist, smtau = dm_to_dist(l[ii], b[ii], dm[ii])` followed by
`assert np.allclose(dist, test_data[dist][ii], atol=2)`. The result is the
proposition the assert checks when the comparison evaluates, or the
exception the line raises: `dist` is a kpc quantity and the reference value
a plain float, so the comparison itself can raise. -/
noncomputable def test_dm_assert1 (O : Dmdsm) (s : PyState) (i : Nat) :
    Except PyErr Prop :=
  match (dm_to_dist O (test_data_l.getD i 0) (test_data_b.getD i 0)
      (PyVal.scalar (test_data_dm.getD i 0)) s).2 with
  | Except.ok (q, _) => np_allclose_q q (test_data_dist.getD i 0) 2
  | Except.error e => Except.error e

/-- Iteration `ii` of `test_dm`, second assert statement:
`dm, smtau = dist_to_dm(l[ii], b[ii], dist[ii])` followed by
`assert np.allclose(dm, test_data[dm][ii], atol=2)`, with the same raising
comparison semantics (`dm` carries pc cm^-3). -/
noncomputable def test_dm_assert2 (O : Dmdsm) (s : PyState) (i : Nat) :
    Except PyErr Prop :=
  match (dist_to_dm O (test_data_l.getD i 0) (test_data_b.getD i 0)
      (PyVal.scalar (test_data_dist.getD i 0)) s).2 with
  | Except.ok (q, _) => np_allclose_q q (test_data_dm.getD i 0) 2
  | Except.error e => Except.error e

/-- Modelled from the spec: the dispersion routine itself (compiled Fortran
behind the f2py object `dmdsm.dmdsm`) is not under src/; only its docstring
and callers are. Section 8 of the spec fixes its behaviour at three reference
points taken from the NE2001 distribution: DMs 10, 20, 11.1 pc cm^-3
correspond to distances 0.461, 0.781, 0.907 kpc. `refDist` maps each
reference DM to its reference distance (0 elsewhere). -/
noncomputable def refDist (x : Real) : Real :=
  if x = 10 then 0.461 else if x = 20 then 0.781 else if x = 11.1 then 0.907 else 0

/-- Modelled from the spec: inverse direction of [refDist] - each reference
distance maps back to its reference DM (0 elsewhere). -/
noncomputable def refDm (x : Real) : Real :=
  if x = 0.461 then 10 else if x = 0.781 then 20 else if x = 0.907 then 11.1 else 0

/-- Modelled from the spec: a `Dmdsm` instance realising the reference
behaviour. With `ndir = 1` it solves for distance given DM, writing
[refDist] of the DM buffer into the distance buffer; otherwise it solves for
DM given distance, writing [refDm] of the distance buffer into the DM buffer.
Scattering moments are not constrained by the reference data and are 0. -/
noncomputable def refDmdsm : Dmdsm where
  run := fun _ _ ndir dm dist =>
    if ndir = 1 then
      { limit := " ", sm := 0, smtau := 0, smtheta := 0, smiso := 0,
        dmOut := dm, distOut := dist.map (fun _ => refDist (dm.headD 0)) }
    else
      { limit := " ", sm := 0, smtau := 0, smtheta := 0, smiso := 0,
        dmOut := dm.map (fun _ => refDm (dist.headD 0)), distOut := dist }
  dm_len := by
    intro l b n dm dist
    dsimp only
    split <;> simp
  dist_len := by
    intro l b n dm dist
    dsimp only
    split <;> simp

/-- A concrete `Dmdsm` instance that leaves its in/out buffers unchanged and
returns zero scattering moments; used to instantiate theorems at concrete
inputs. -/
def idDmdsm : Dmdsm where
  run := fun _ _ _ dm dist =>
    { limit := " ", sm := 0, smtau := 0, smtheta := 0, smiso := 0,
      dmOut := dm, distOut := dist }
  dm_len := fun _ _ _ _ _ => rfl
  dist_len := fun _ _ _ _ _ => rfl

/-! ### Heap bookkeeping lemmas -/

theorem set_append_cons_zero (A : List (List Real)) (x v : List Real) (t : List (List Real)) :
    (A ++ x :: t).set A.length v = A ++ v :: t := by
  induction A with
  | nil => simp
  | cons a A ih => simp [ih]

theorem set_append_cons_one (A : List (List Real)) (x y v : List Real) (t : List (List Real)) :
    (A ++ x :: y :: t).set (A.length + 1) v = A ++ x :: v :: t := by
  induction A with
  | nil => simp
  | cons a A ih => simp [ih]

theorem getD_append_cons_one (A : List (List Real)) (x y : List Real) (t : List (List Real)) :
    (A ++ x :: y :: t).getD (A.length + 1) [] = y := by
  induction A with
  | nil => simp [List.getD]
  | cons a A ih => simpa using ih

theorem getD_append_lt (A B : List (List Real)) (a : Nat) (h : a < A.length) :
    (A ++ B).getD a [] = A.getD a [] := by
  simp [List.getD, List.getElem?_append_left h]

theorem pyContents_cwd (s : PyState) (c : String) (v : PyVal) :
    pyContents { s with cwd := c } v = pyContents s v := by
  cases v <;> simp [pyContents, readArr]

/-- Collapsing the two allocations and the two in-place writes that a
conversion wrapper performs: the heap grows by exactly the two fresh buffers,
holding their final (routine-written) contents, and `cwd` is untouched. -/
theorem write2_alloc2 (s : PyState) (L Z v1 v2 : List Real) :
    writeArr (writeArr (allocArr (allocArr s L).1 Z).1 (allocArr s L).2 v1)
      (allocArr (allocArr s L).1 Z).2 v2 = ⟨s.cwd, s.arrays ++ [v1, v2]⟩ := by
  simp only [allocArr, writeArr, List.length_append, List.length_cons, List.length_nil,
    List.append_assoc, List.cons_append, List.nil_append]
  rw [set_append_cons_zero]
  rw [show s.arrays.length + (0 + 1) = s.arrays.length + 1 by omega]
  rw [set_append_cons_one]

theorem alloc2_addr (s : PyState) (L Z : List Real) :
    (allocArr (allocArr s L).1 Z).2 = s.arrays.length + 1 := by
  simp [allocArr]

theorem alloc2_state (s : PyState) (L Z : List Real) :
    (allocArr (allocArr s L).1 Z).1 = ⟨s.cwd, s.arrays ++ [L, Z]⟩ := by
  simp [allocArr]

/-! ### Run lemmas: what one call of each conversion wrapper amounts to -/

/-- Unfolding `dm_to_dist O l b v s` when the argument has size one, so the
f2py shape admission succeeds: the routine is called at
`(deg2rad l, deg2rad b, ndir = 1)` with a copy of the argument contents as DM
buffer and a zero-filled buffer of the same shape as distance buffer; the two
written-back buffers are the only new heap objects; the result is `float()`
of the written distance buffer with unit kpc, paired with `smtau` seconds. -/
theorem dm_to_dist_run_ok (O : Dmdsm) (l b : Real) (v : PyVal) (s : PyState)
    (h : (pyContents s v).length = 1) :
    dm_to_dist O l b v s =
      (match pyFloat ((O.run (deg2rad l) (deg2rad b) 1 (pyContents s v)
          (zeros_like (pyContents s v))).distOut) with
       | some d =>
         (⟨s.cwd, s.arrays ++
             [(O.run (deg2rad l) (deg2rad b) 1 (pyContents s v)
                 (zeros_like (pyContents s v))).dmOut,
              (O.run (deg2rad l) (deg2rad b) 1 (pyContents s v)
                 (zeros_like (pyContents s v))).distOut]⟩,
          Except.ok (⟨d, PhysUnit.kpc⟩,
            ⟨(O.run (deg2rad l) (deg2rad b) 1 (pyContents s v)
                (zeros_like (pyContents s v))).smtau, PhysUnit.second⟩))
       | none =>
         (⟨DATA_PATH, s.arrays ++
             [(O.run (deg2rad l) (deg2rad b) 1 (pyContents s v)
                 (zeros_like (pyContents s v))).dmOut,
              (O.run (deg2rad l) (deg2rad b) 1 (pyContents s v)
                 (zeros_like (pyContents s v))).distOut]⟩,
          Except.error PyErr.typeError)) := by
  unfold dm_to_dist run_from_pkgdir
  dsimp only
  rw [pyContents_cwd]
  rw [show f2py_dmdsm O (deg2rad l) (deg2rad b) 1 (pyContents s v)
      (zeros_like (pyContents s v)) =
      Except.ok (O.run (deg2rad l) (deg2rad b) 1 (pyContents s v)
        (zeros_like (pyContents s v))) from by
    rw [f2py_dmdsm, if_pos ⟨h, by simp [zeros_like, h]⟩]]
  dsimp only
  rw [write2_alloc2, alloc2_addr]
  have hs : ({ s with cwd := DATA_PATH } : PyState).arrays = s.arrays := rfl
  rw [hs]
  have hrd : readArr (⟨({ s with cwd := DATA_PATH } : PyState).cwd, s.arrays ++
      [(O.run (deg2rad l) (deg2rad b) 1 (pyContents s v)
          (zeros_like (pyContents s v))).dmOut,
       (O.run (deg2rad l) (deg2rad b) 1 (pyContents s v)
          (zeros_like (pyContents s v))).distOut]⟩ : PyState) (s.arrays.length + 1) =
      (O.run (deg2rad l) (deg2rad b) 1 (pyContents s v)
          (zeros_like (pyContents s v))).distOut := by
    simpa [readArr] using getD_append_cons_one s.arrays _ _ _
  rw [hrd]
  rcases hpf : pyFloat ((O.run (deg2rad l) (deg2rad b) 1 (pyContents s v)
      (zeros_like (pyContents s v))).distOut) with _ | d <;> simp [hpf]

/-- Unfolding `dist_to_dm O l b v s` when the argument has size one, so the
f2py shape admission succeeds: the routine is called at
`(deg2rad l, deg2rad b, ndir = -1)` with a zero-filled buffer of the shape of
the argument as DM buffer and a copy of the argument contents as distance
buffer; the result is `float()` of the written DM buffer with unit
pc cm^-3, paired with `smtau` seconds. -/
theorem dist_to_dm_run_ok (O : Dmdsm) (l b : Real) (v : PyVal) (s : PyState)
    (h : (pyContents s v).length = 1) :
    dist_to_dm O l b v s =
      (match pyFloat ((O.run (deg2rad l) (deg2rad b) (-1) (zeros_like (pyContents s v))
          (pyContents s v)).dmOut) with
       | some d =>
         (⟨s.cwd, s.arrays ++
             [(O.run (deg2rad l) (deg2rad b) (-1) (zeros_like (pyContents s v))
                 (pyContents s v)).distOut,
              (O.run (deg2rad l) (deg2rad b) (-1) (zeros_like (pyContents s v))
                 (pyContents s v)).dmOut]⟩,
          Except.ok (⟨d, PhysUnit.pcPerCm3⟩,
            ⟨(O.run (deg2rad l) (deg2rad b) (-1) (zeros_like (pyContents s v))
                (pyContents s v)).smtau, PhysUnit.second⟩))
       | none =>
         (⟨DATA_PATH, s.arrays ++
             [(O.run (deg2rad l) (deg2rad b) (-1) (zeros_like (pyContents s v))
                 (pyContents s v)).distOut,
              (O.run (deg2rad l) (deg2rad b) (-1) (zeros_like (pyContents s v))
                 (pyContents s v)).dmOut]⟩,
          Except.error PyErr.typeError)) := by
  unfold dist_to_dm run_from_pkgdir
  dsimp only
  rw [pyContents_cwd]
  rw [show f2py_dmdsm O (deg2rad l) (deg2rad b) (-1) (zeros_like (pyContents s v))
      (pyContents s v) =
      Except.ok (O.run (deg2rad l) (deg2rad b) (-1) (zeros_like (pyContents s v))
        (pyContents s v)) from by
    rw [f2py_dmdsm, if_pos ⟨by simp [zeros_like, h], h⟩]]
  dsimp only
  rw [show (writeArr (writeArr (allocArr (allocArr { s with cwd := DATA_PATH }
      (pyContents s v)).1 (zeros_like (pyContents s v))).1
      (allocArr (allocArr { s with cwd := DATA_PATH } (pyContents s v)).1
        (zeros_like (pyContents s v))).2
      ((O.run (deg2rad l) (deg2rad b) (-1) (zeros_like (pyContents s v))
        (pyContents s v)).dmOut))
      (allocArr { s with cwd := DATA_PATH } (pyContents s v)).2
      ((O.run (deg2rad l) (deg2rad b) (-1) (zeros_like (pyContents s v))
        (pyContents s v)).distOut)) =
      (⟨DATA_PATH, s.arrays ++
        [(O.run (deg2rad l) (deg2rad b) (-1) (zeros_like (pyContents s v))
            (pyContents s v)).distOut,
         (O.run (deg2rad l) (deg2rad b) (-1) (zeros_like (pyContents s v))
            (pyContents s v)).dmOut]⟩ : PyState) from ?_]
  · rw [alloc2_addr]
    have hrd : readArr (⟨DATA_PATH, s.arrays ++
        [(O.run (deg2rad l) (deg2rad b) (-1) (zeros_like (pyContents s v))
            (pyContents s v)).distOut,
         (O.run (deg2rad l) (deg2rad b) (-1) (zeros_like (pyContents s v))
            (pyContents s v)).dmOut]⟩ : PyState)
        (({ s with cwd := DATA_PATH } : PyState).arrays.length + 1) =
        (O.run (deg2rad l) (deg2rad b) (-1) (zeros_like (pyContents s v))
          (pyContents s v)).dmOut := by
      simpa [readArr] using getD_append_cons_one s.arrays _ _ _
    rw [hrd]
    rcases hpf : pyFloat ((O.run (deg2rad l) (deg2rad b) (-1)
        (zeros_like (pyContents s v)) (pyContents s v)).dmOut) with _ | d <;> simp [hpf]
  · simp only [allocArr, writeArr, List.length_append, List.length_cons, List.length_nil,
      List.append_assoc, List.cons_append, List.nil_append]
    rw [show ({ s with cwd := DATA_PATH } : PyState).arrays.length + (0 + 1) =
        s.arrays.length + 1 from by simp]
    rw [set_append_cons_one, set_append_cons_zero]

/-- Unfolding `dm_to_dist O l b v s` when the argument does not have size
one: the f2py layer rejects the buffer for the rank-0 in/out parameter with
`ValueError` at the `dmdsm.dmdsm` call, before the core runs and before any
`float()` coercion; the two freshly allocated (never written) buffers remain
on the heap and the exception propagates with the working directory still at
`DATA_PATH`. -/
theorem dm_to_dist_run_badshape (O : Dmdsm) (l b : Real) (v : PyVal) (s : PyState)
    (h : (pyContents s v).length ≠ 1) :
    dm_to_dist O l b v s =
      (⟨DATA_PATH, s.arrays ++ [pyContents s v, zeros_like (pyContents s v)]⟩,
       Except.error PyErr.valueError) := by
  unfold dm_to_dist run_from_pkgdir
  dsimp only
  rw [pyContents_cwd]
  rw [show f2py_dmdsm O (deg2rad l) (deg2rad b) 1 (pyContents s v)
      (zeros_like (pyContents s v)) = Except.error PyErr.valueError from by
    rw [f2py_dmdsm, if_neg]
    intro hc
    exact h hc.1]
  dsimp only
  rw [alloc2_state]

/-- Unfolding `dist_to_dm O l b v s` when the argument does not have size
one: as in [dm_to_dist_run_badshape], the f2py layer raises `ValueError` at
the call itself. -/
theorem dist_to_dm_run_badshape (O : Dmdsm) (l b : Real) (v : PyVal) (s : PyState)
    (h : (pyContents s v).length ≠ 1) :
    dist_to_dm O l b v s =
      (⟨DATA_PATH, s.arrays ++ [pyContents s v, zeros_like (pyContents s v)]⟩,
       Except.error PyErr.valueError) := by
  unfold dist_to_dm run_from_pkgdir
  dsimp only
  rw [pyContents_cwd]
  rw [show f2py_dmdsm O (deg2rad l) (deg2rad b) (-1) (zeros_like (pyContents s v))
      (pyContents s v) = Except.error PyErr.valueError from by
    rw [f2py_dmdsm, if_neg]
    intro hc
    exact h hc.2]
  dsimp only
  rw [alloc2_state]

/-! ### Derived facts shared between claims -/

theorem pyFloat_eq_none (l : List Real) (h : l.length ≠ 1) : pyFloat l = none := by
  match l, h with
  | [], _ => rfl
  | [x], hx => exact absurd rfl hx
  | x :: y :: t, _ => rfl

/-- Scalar-argument form of [dm_to_dist_run]: the zero-initialized distance
buffer is `[0]`, the routine-written distance buffer has size one, so
`float()` succeeds and yields its sole element. -/
theorem dm_to_dist_scalar_result (O : Dmdsm) (l b dm : Real) (s : PyState) :
    (dm_to_dist O l b (PyVal.scalar dm) s).2 =
      Except.ok (⟨(O.run (deg2rad l) (deg2rad b) 1 [dm] [0]).distOut.headD 0, PhysUnit.kpc⟩,
        ⟨(O.run (deg2rad l) (deg2rad b) 1 [dm] [0]).smtau, PhysUnit.second⟩) := by
  rw [dm_to_dist_run_ok O l b (PyVal.scalar dm) s rfl]
  rw [show pyContents s (PyVal.scalar dm) = [dm] from rfl]
  rw [show zeros_like [dm] = [0] from rfl]
  obtain ⟨x, hx⟩ := List.length_eq_one.mp
    (by simpa using O.dist_len (deg2rad l) (deg2rad b) 1 [dm] [0])
  rw [hx]
  simp [pyFloat]

/-- Scalar-argument form of [dist_to_dm_run]. -/
theorem dist_to_dm_scalar_result (O : Dmdsm) (l b dist : Real) (s : PyState) :
    (dist_to_dm O l b (PyVal.scalar dist) s).2 =
      Except.ok (⟨(O.run (deg2rad l) (deg2rad b) (-1) [0] [dist]).dmOut.headD 0,
          PhysUnit.pcPerCm3⟩,
        ⟨(O.run (deg2rad l) (deg2rad b) (-1) [0] [dist]).smtau, PhysUnit.second⟩) := by
  rw [dist_to_dm_run_ok O l b (PyVal.scalar dist) s rfl]
  rw [show pyContents s (PyVal.scalar dist) = [dist] from rfl]
  rw [show zeros_like [dist] = [0] from rfl]
  obtain ⟨x, hx⟩ := List.length_eq_one.mp
    (by simpa using O.dm_len (deg2rad l) (deg2rad b) (-1) [0] [dist])
  rw [hx]
  simp [pyFloat]

theorem refDmdsm_distOut (lr br dmv : Real) :
    (refDmdsm.run lr br 1 [dmv] [0]).distOut = [refDist dmv] := by
  simp [refDmdsm]

theorem refDmdsm_dmOut (lr br dv : Real) :
    (refDmdsm.run lr br (-1) [0] [dv]).dmOut = [refDm dv] := by
  simp [refDmdsm]

theorem okValue_dm_to_dist_ref (l b dmv : Real) (s : PyState) :
    okValue (dm_to_dist refDmdsm l b (PyVal.scalar dmv) s).2 = refDist dmv := by
  rw [dm_to_dist_scalar_result, refDmdsm_distOut]
  simp [okValue]

theorem okValue_dist_to_dm_ref (l b dv : Real) (s : PyState) :
    okValue (dist_to_dm refDmdsm l b (PyVal.scalar dv) s).2 = refDm dv := by
  rw [dist_to_dm_scalar_result, refDmdsm_dmOut]
  simp [okValue]

theorem refDist_at_10 : refDist 10 = 0.461 := by rw [refDist]; norm_num

theorem refDist_at_20 : refDist 20 = 0.781 := by rw [refDist]; norm_num

theorem refDist_at_11 : refDist 11.1 = 0.907 := by rw [refDist]; norm_num

theorem refDm_at_461 : refDm 0.461 = 10 := by rw [refDm]; norm_num

theorem refDm_at_781 : refDm 0.781 = 20 := by rw [refDm]; norm_num

theorem refDm_at_907 : refDm 0.907 = 11.1 := by rw [refDm]; norm_num

theorem density_xyz_not_bound : "density_xyz" ∉ moduleGlobals := by decide

theorem test_density_cell_result (D : Density2001) (x y z : Real) (s : PyState) :
    test_density_cell D x y z s = (s, Except.error PyErr.nameError) := by
  rw [test_density_cell, if_neg density_xyz_not_bound]

theorem linspace_length (a b : Real) (n : Nat) : (linspace a b n).length = n := by
  simp only [linspace, List.length_map, List.length_range]

theorem gridAll_name_error (D : Density2001) (xs ys : List Real) (z : Real) (s : PyState)
    (hx : xs ≠ []) (hy : ys ≠ []) :
    gridAll D xs ys z s = (s, Except.error PyErr.nameError) := by
  obtain ⟨x, xs2, rfl⟩ := List.exists_cons_of_ne_nil hx
  obtain ⟨y, ys2, rfl⟩ := List.exists_cons_of_ne_nil hy
  rw [gridAll, gridRow, test_density_cell_result]

/-! ### The claims -/

/-- Claim C1. The spec requires that after any `run_from_pkgdir`-wrapped call,
on normal return or on a raise, the working directory equals its value from
immediately before the call. The code restores it only on the normal path:
with the process in `/home/user`, a wrapped operation that raises propagates
its failure with the working directory left at `DATA_PATH` (first two
conjuncts), while a returning operation does get the directory restored
(third conjunct). -/
theorem run_from_pkgdir_cwd_after_raise :
    (run_from_pkgdir (fun s => ((s, Except.error PyErr.valueError) :
        PyState × Except PyErr Real))
      (⟨"/home/user", []⟩ : PyState)).1.cwd = DATA_PATH ∧
    DATA_PATH ≠ "/home/user" ∧
    (run_from_pkgdir (fun s => (s, Except.ok (0 : Real)))
      (⟨"/home/user", []⟩ : PyState)).1.cwd = "/home/user" :=
  ⟨rfl, by decide, rfl⟩

/-- Claim C2. The per-cell call of `test_density` never resolves to the
density-sampling function of the module: the name it uses, `density_xyz`, is
bound neither in the module globals nor anywhere the call site can see, so
every cell - and hence the whole 1000 x 1000 grid fill, already at its first
cell - raises `NameError` instead of invoking
`calculate_electron_density_xyz`. -/
theorem test_density_unbound_name :
    "density_xyz" ∉ moduleGlobals ∧
    (∀ (D : Density2001) (x y z : Real) (s : PyState),
      test_density_cell D x y z s = (s, Except.error PyErr.nameError)) ∧
    (∀ (D : Density2001) (s : PyState),
      test_density_fill D s = (s, Except.error PyErr.nameError)) := by
  refine ⟨density_xyz_not_bound, fun D x y z s => test_density_cell_result D x y z s,
    fun D s => ?_⟩
  rw [test_density_fill]
  apply gridAll_name_error
  · intro hnil
    have := linspace_length (-30) 30 1000
    rw [hnil] at this
    simp at this
  · intro hnil
    have := linspace_length (-30) 30 1000
    rw [hnil] at this
    simp at this

/-- Claim C3. For every `l`, `b` in degrees and scalar `dm`, `dm_to_dist`
converts both angles to radians, calls the external dispersion routine with
direction flag `1` (solve for distance), `[dm]` as the DM input buffer and a
zero-initialized distance buffer of the same shape, and returns the written
distance as a kiloparsec quantity paired with `smtau` as a seconds
quantity. -/
theorem dm_to_dist_spec (O : Dmdsm) (l b dm : Real) (s : PyState) :
    (dm_to_dist O l b (PyVal.scalar dm) s).2 =
      Except.ok (⟨(O.run (deg2rad l) (deg2rad b) 1 [dm] [0]).distOut.headD 0, PhysUnit.kpc⟩,
        ⟨(O.run (deg2rad l) (deg2rad b) 1 [dm] [0]).smtau, PhysUnit.second⟩) :=
  dm_to_dist_scalar_result O l b dm s

/-- Claim C4. For every `l`, `b` in degrees and scalar `dist`, `dist_to_dm`
is symmetric to `dm_to_dist` with the direction flag reversed to `-1` (solve
for DM), `[dist]` as the distance input buffer and a zero-initialized DM
buffer of the same shape, and returns the written DM as a pc cm^-3 quantity
paired with `smtau` as a seconds quantity. -/
theorem dist_to_dm_spec (O : Dmdsm) (l b dist : Real) (s : PyState) :
    (dist_to_dm O l b (PyVal.scalar dist) s).2 =
      Except.ok (⟨(O.run (deg2rad l) (deg2rad b) (-1) [0] [dist]).dmOut.headD 0,
          PhysUnit.pcPerCm3⟩,
        ⟨(O.run (deg2rad l) (deg2rad b) (-1) [0] [dist]).smtau, PhysUnit.second⟩) :=
  dist_to_dm_scalar_result O l b dist s

/-- Claim C5. For every Galactocentric `x`, `y`, `z`,
`calculate_electron_density_xyz` calls the external density routine on
`(x, y, z)` unmodified - with no input-range validation, i.e. for all real
inputs - and returns the sum of exactly the first seven of its returned
outputs (the seven density components) as a cm^-3 quantity. -/
theorem calculate_electron_density_xyz_spec (D : Density2001) (x y z : Real) (s : PyState) :
    (calculate_electron_density_xyz D x y z s).2 =
      Except.ok ⟨D.ne1 x y z + D.ne2 x y z + D.nea x y z + D.negc x y z +
        D.nelism x y z + D.necn x y z + D.nevn x y z, PhysUnit.perCm3⟩ := by
  unfold calculate_electron_density_xyz run_from_pkgdir
  dsimp only
  rw [density_2001_out]
  simp only [List.take_succ_cons, List.take_zero, List.sum_cons, List.sum_nil]
  ring_nf

/-- Every first assert statement of `test_dm` raises before evaluating its
check, whatever the dispersion routine computes: the distance it compares
carries kpc and the reference value is a plain float. -/
theorem test_dm_assert1_raises (O : Dmdsm) (s : PyState) (i : Nat) :
    test_dm_assert1 O s i = Except.error PyErr.unitConversionError := by
  rw [test_dm_assert1, dm_to_dist_scalar_result]
  rfl

/-- Every second assert statement of `test_dm` raises before evaluating its
check, whatever the dispersion routine computes: the DM it compares carries
pc cm^-3 and the reference value is a plain float. -/
theorem test_dm_assert2_raises (O : Dmdsm) (s : PyState) (i : Nat) :
    test_dm_assert2 O s i = Except.error PyErr.unitConversionError := by
  rw [test_dm_assert2, dist_to_dm_scalar_result]
  rfl

/-- Claim C6. Under the spec-modelled reference routine, at each of the
three reference points `(l=0, b=0, dm=10)`, `(l=2, b=7.5, dm=20)` and
`(l=97.5, b=85.2, dm=11.1)`, `dm_to_dist` does return a distance within
absolute tolerance 2 kpc of the listed literature value (0.461, 0.781,
0.907 kpc) - but `test_dm` never asserts this: its
`assert np.allclose(dist, ..., atol=2)` line compares the kpc quantity with
a plain float and raises `UnitConversionError` at every reference point,
so the harness crashes instead of evaluating the claimed tolerance check. -/
theorem test_dm_reference_distances (s : PyState) :
    (|okValue (dm_to_dist refDmdsm 0 0 (PyVal.scalar 10) s).2 - 0.461| ≤ 2 ∧
      test_dm_assert1 refDmdsm s 0 = Except.error PyErr.unitConversionError) ∧
    (|okValue (dm_to_dist refDmdsm 2 7.5 (PyVal.scalar 20) s).2 - 0.781| ≤ 2 ∧
      test_dm_assert1 refDmdsm s 1 = Except.error PyErr.unitConversionError) ∧
    (|okValue (dm_to_dist refDmdsm 97.5 85.2 (PyVal.scalar 11.1) s).2 - 0.907| ≤ 2 ∧
      test_dm_assert1 refDmdsm s 2 = Except.error PyErr.unitConversionError) := by
  refine ⟨⟨?_, test_dm_assert1_raises refDmdsm s 0⟩,
    ⟨?_, test_dm_assert1_raises refDmdsm s 1⟩,
    ⟨?_, test_dm_assert1_raises refDmdsm s 2⟩⟩
  · rw [okValue_dm_to_dist_ref, refDist_at_10]; norm_num
  · rw [okValue_dm_to_dist_ref, refDist_at_20]; norm_num
  · rw [okValue_dm_to_dist_ref, refDist_at_11]; norm_num

/-- Claim C7. Round-trip under the spec-modelled reference routine: feeding
each reference distance into `dist_to_dm` with the same `l`, `b` does return
a DM within absolute tolerance 2 pc cm^-3 of the original DM (10, 20,
11.1) - but `test_dm` never asserts this: its
`assert np.allclose(dm, ..., atol=2)` line compares the pc cm^-3 quantity
with a plain float and raises `UnitConversionError` at every reference
point, so the harness crashes instead of evaluating the claimed round-trip
check. -/
theorem test_dm_roundtrip_dm (s : PyState) :
    (|okValue (dist_to_dm refDmdsm 0 0 (PyVal.scalar 0.461) s).2 - 10| ≤ 2 ∧
      test_dm_assert2 refDmdsm s 0 = Except.error PyErr.unitConversionError) ∧
    (|okValue (dist_to_dm refDmdsm 2 7.5 (PyVal.scalar 0.781) s).2 - 20| ≤ 2 ∧
      test_dm_assert2 refDmdsm s 1 = Except.error PyErr.unitConversionError) ∧
    (|okValue (dist_to_dm refDmdsm 97.5 85.2 (PyVal.scalar 0.907) s).2 - 11.1| ≤ 2 ∧
      test_dm_assert2 refDmdsm s 2 = Except.error PyErr.unitConversionError) := by
  refine ⟨⟨?_, test_dm_assert2_raises refDmdsm s 0⟩,
    ⟨?_, test_dm_assert2_raises refDmdsm s 1⟩,
    ⟨?_, test_dm_assert2_raises refDmdsm s 2⟩⟩
  · rw [okValue_dist_to_dm_ref, refDm_at_461]; norm_num
  · rw [okValue_dist_to_dm_ref, refDm_at_781]; norm_num
  · rw [okValue_dist_to_dm_ref, refDm_at_907]; norm_num

/-- Claim C8. The degree inputs are multiplied by pi/180 before reaching the
external routine: `deg2rad 180 = pi` exactly, `deg2rad` is multiplication by
`pi/180`, and for `l = 180` both wrappers hand the routine `pi` as the
longitude argument. -/
theorem degree_to_radian_conversion (O : Dmdsm) (b dm dist : Real) (s : PyState) :
    deg2rad 180 = Real.pi ∧
    (∀ l : Real, deg2rad l = l * (Real.pi / 180)) ∧
    (dm_to_dist O 180 b (PyVal.scalar dm) s).2 =
      Except.ok (⟨(O.run Real.pi (deg2rad b) 1 [dm] [0]).distOut.headD 0, PhysUnit.kpc⟩,
        ⟨(O.run Real.pi (deg2rad b) 1 [dm] [0]).smtau, PhysUnit.second⟩) ∧
    (dist_to_dm O 180 b (PyVal.scalar dist) s).2 =
      Except.ok (⟨(O.run Real.pi (deg2rad b) (-1) [0] [dist]).dmOut.headD 0,
          PhysUnit.pcPerCm3⟩,
        ⟨(O.run Real.pi (deg2rad b) (-1) [0] [dist]).smtau, PhysUnit.second⟩) := by
  have hpi : deg2rad 180 = Real.pi := by
    rw [deg2rad]; field_simp
  refine ⟨hpi, fun l => rfl, ?_, ?_⟩
  · have h := dm_to_dist_scalar_result O 180 b dm s
    rw [hpi] at h
    exact h
  · have h := dist_to_dm_scalar_result O 180 b dist s
    rw [hpi] at h
    exact h

/-- Claim C9 counterexample. With the two-element array `[3, 4]` stored at
address 0, `dm_to_dist` does raise - but with the `ValueError` of the f2py
shape rejection at the `dmdsm.dmdsm` call itself, not with the `TypeError`
that a failing final `float()` coercion would produce: the multi-element
buffer is rejected before the routine (and hence `float()`) ever runs, so
the mechanism the claim states is not the one the program exhibits. -/
theorem multi_element_mechanism_counterexample :
    (dm_to_dist idDmdsm 0 0 (PyVal.arrayRef 0)
        (⟨"/home/user", [[3, 4]]⟩ : PyState)).2 = Except.error PyErr.valueError ∧
    (dm_to_dist idDmdsm 0 0 (PyVal.arrayRef 0)
        (⟨"/home/user", [[3, 4]]⟩ : PyState)).2 ≠ Except.error PyErr.typeError := by
  have hlen : (pyContents (⟨"/home/user", [[3, 4]]⟩ : PyState)
      (PyVal.arrayRef 0)).length ≠ 1 := by
    rw [show pyContents (⟨"/home/user", [[3, 4]]⟩ : PyState) (PyVal.arrayRef 0) =
      [3, 4] from rfl]
    simp
  rw [dm_to_dist_run_badshape idDmdsm 0 0 (PyVal.arrayRef 0)
    (⟨"/home/user", [[3, 4]]⟩ : PyState) hlen]
  simp

/-- Claim C9, amended. A multi-element array argument never yields a batch
of results: for both wrappers the f2py layer rejects the multi-element
buffer for its rank-0 in/out parameters with `ValueError` at the
`dmdsm.dmdsm` call itself - before any final `float()` coercion could run -
so the call raises instead of returning a value; only size-one inputs reach
the routine. -/
theorem multi_element_input_raises (O : Dmdsm) (l b : Real) (a : Nat) (s : PyState)
    (h : 1 < (readArr s a).length) :
    (dm_to_dist O l b (PyVal.arrayRef a) s).2 = Except.error PyErr.valueError ∧
    (dist_to_dm O l b (PyVal.arrayRef a) s).2 = Except.error PyErr.valueError := by
  have hlen : (pyContents s (PyVal.arrayRef a)).length ≠ 1 := by
    rw [show pyContents s (PyVal.arrayRef a) = readArr s a from rfl]
    omega
  constructor
  · rw [dm_to_dist_run_badshape O l b (PyVal.arrayRef a) s hlen]
  · rw [dist_to_dm_run_badshape O l b (PyVal.arrayRef a) s hlen]

/-- Witness for the amended multi-element claim at the concrete two-element
array `[7, 8]` stored at address 0. -/
theorem multi_element_input_raises_witness :
    1 < (readArr (⟨"/tmp", [[7, 8]]⟩ : PyState) 0).length ∧
    (dm_to_dist idDmdsm 0 0 (PyVal.arrayRef 0) (⟨"/tmp", [[7, 8]]⟩ : PyState)).2 =
      Except.error PyErr.valueError ∧
    (dist_to_dm idDmdsm 0 0 (PyVal.arrayRef 0) (⟨"/tmp", [[7, 8]]⟩ : PyState)).2 =
      Except.error PyErr.valueError := by
  have h : 1 < (readArr (⟨"/tmp", [[7, 8]]⟩ : PyState) 0).length := by
    rw [show readArr (⟨"/tmp", [[7, 8]]⟩ : PyState) 0 = [7, 8] from rfl]
    norm_num
  exact ⟨h, (multi_element_input_raises idDmdsm 0 0 0 _ h).1,
    (multi_element_input_raises idDmdsm 0 0 0 _ h).2⟩

/-- Claim C10. Neither wrapper mutates a caller-supplied array: the argument
contents are copied into fresh buffers before the external routine writes its
in/out parameters, so every array that existed before the call holds the same
contents after it, on both the success and the failure path. -/
theorem caller_buffers_unchanged (O : Dmdsm) (l b : Real) (v : PyVal) (s : PyState) (a : Nat)
    (h : a < s.arrays.length) :
    readArr (dm_to_dist O l b v s).1 a = readArr s a ∧
    readArr (dist_to_dm O l b v s).1 a = readArr s a := by
  constructor
  · by_cases h1 : (pyContents s v).length = 1
    · rw [dm_to_dist_run_ok O l b v s h1]
      rcases hpf : pyFloat ((O.run (deg2rad l) (deg2rad b) 1 (pyContents s v)
          (zeros_like (pyContents s v))).distOut) with _ | d <;>
        simp only [readArr] <;> exact getD_append_lt _ _ a h
    · rw [dm_to_dist_run_badshape O l b v s h1]
      simp only [readArr]
      exact getD_append_lt _ _ a h
  · by_cases h1 : (pyContents s v).length = 1
    · rw [dist_to_dm_run_ok O l b v s h1]
      rcases hpf : pyFloat ((O.run (deg2rad l) (deg2rad b) (-1) (zeros_like (pyContents s v))
          (pyContents s v)).dmOut) with _ | d <;>
        simp only [readArr] <;> exact getD_append_lt _ _ a h
    · rw [dist_to_dm_run_badshape O l b v s h1]
      simp only [readArr]
      exact getD_append_lt _ _ a h

/-- Witness for the no-mutation claim at the concrete array `[5]` stored at
address 0. -/
theorem caller_buffers_unchanged_witness :
    0 < (⟨"/home/user", [[5]]⟩ : PyState).arrays.length ∧
    readArr (dm_to_dist idDmdsm 0 0 (PyVal.arrayRef 0)
        (⟨"/home/user", [[5]]⟩ : PyState)).1 0 =
      readArr (⟨"/home/user", [[5]]⟩ : PyState) 0 ∧
    readArr (dist_to_dm idDmdsm 0 0 (PyVal.arrayRef 0)
        (⟨"/home/user", [[5]]⟩ : PyState)).1 0 =
      readArr (⟨"/home/user", [[5]]⟩ : PyState) 0 := by
  have h : 0 < (⟨"/home/user", [[5]]⟩ : PyState).arrays.length := by norm_num
  exact ⟨h, (caller_buffers_unchanged idDmdsm 0 0 (PyVal.arrayRef 0) _ 0 h).1,
    (caller_buffers_unchanged idDmdsm 0 0 (PyVal.arrayRef 0) _ 0 h).2⟩

end NE2001
